/-
Verification of the SBU-Reporter core pipeline (shallow embedding).

The definitions below are translated from the repository's Python sources:
  * src/sbu/dataframe.py              (get_date_range, _parse_date, get_sbu,
                                       _get_total_sbu_requested)
  * src/sbu/dataframe_postprocess.py  (get_sbu_per_project, get_agregated_sbu,
                                       get_percentage_sbu, _get_active_name)
  * src/sbu/parse_yaml.py             (validate_usernames)
  * src/sbu/globvar.py                (update_globals, _populate_globals)

DataFrames are modelled as lists of row structures; a float cell that can be
NaN ("no data") is modelled as `Option ℚ` with `none` playing the role of NaN,
and pandas' skipna conventions are made explicit at each use site.  Python
exceptions are modelled with `Except`/`Option` carrying a `PyErr`.
-/
import Mathlib

/-- A raised Python exception: `TypeError` or `ValueError` with its message. -/
inductive PyErr where
  | typeError (msg : String) : PyErr
  | valueError (msg : String) : PyErr
deriving DecidableEq

/-- The dynamically-typed `input_date` argument of `_parse_date`
(src/sbu/dataframe.py lines 443-492): a string, an integer, `None`, or a
value of any other type (represented only by its class name, which is all
`_parse_date` touches on that branch). -/
inductive DateInput where
  | str (s : String) : DateInput
  | int (i : Int) : DateInput
  | absent : DateInput
  | other (typeName : String) : DateInput
deriving DecidableEq

/-- `datetime.date.today()` as consumed by `get_date_range`: the current month
as a two-digit string (`strftime('%m')`) and the current year as a number. -/
structure Today where
  month : String
  year : ℕ
deriving DecidableEq

/-- Python's `'{:d}'.format(i)`: decimal digits, with a leading `-` sign for
negative integers. -/
def intFormat (i : Int) : String :=
  if i < 0 then "-" ++ Nat.repr i.natAbs else Nat.repr i.natAbs

/-- `input_date.count('-')`: the number of dash separators in a date string. -/
def dashCount (s : String) : ℕ :=
  s.data.count '-'

/-- `_parse_date` (src/sbu/dataframe.py lines 443-492).  `default_year = None`
falls back to the current year and `default_month = None` to `'01'` (lines
471-474); the type dispatch and dash-count dispatch are lines 476-492. -/
def parse_date (input_date : DateInput) (default_month : Option String)
    (default_year : Option String) (today : Today) : Except PyErr String :=
  let dy : String :=
    match default_year with
    | some y => y
    | none => Nat.repr today.year
  let dm : String :=
    match default_month with
    | some m => m
    | none => "01"
  match input_date with
  | .int i => .ok ("01-01-" ++ intFormat i)
  | .absent => .ok ("01-" ++ dm ++ "-" ++ dy)
  | .str s =>
    if dashCount s = 0 then .ok ("01-" ++ dm ++ "-" ++ s)
    else if dashCount s = 1 then .ok ("01-" ++ s)
    else if dashCount s = 2 then .ok s
    else .error (.valueError ("'input_date': '" ++ s ++ "'"))
  | .other typeName =>
    .error (.typeError
      ("Unsupported object type for the 'input_date' argument: '" ++ typeName ++ "'"))

/-- `get_date_range` (src/sbu/dataframe.py lines 344-374): `year` is the
current year plus one (line 369), and both bounds are parsed with
`default_year=year`; the start bound additionally gets `default_month='01'`
and the end bound the current month. -/
def get_date_range (today : Today) (start stop : DateInput) :
    Except PyErr (String × String) := do
  let month := today.month
  let year := Nat.repr (today.year + 1)
  let s ← parse_date start (some "01") (some year) today
  let e ← parse_date stop (some month) (some year) today
  return (s, e)

/-- A roster row of the user-level DataFrame right before the summary steps of
`get_sbu` (src/sbu/dataframe.py lines 103-146): the `info` columns used by
those steps plus the per-month usage cells (`none` is a NaN cell). -/
structure UserRow where
  username : String
  project : String
  quota : Option ℚ
  active : Bool
  months : List (Option ℚ)
deriving DecidableEq

/-- A row after `get_sbu` has added the `('Month', 'sum')` column. -/
structure FullRow where
  username : String
  project : String
  quota : Option ℚ
  active : Bool
  months : List (Option ℚ)
  msum : Option ℚ
deriving DecidableEq

/-- pandas `df['Month'].sum(axis=1)` for one row: skipna sum of the present
cells, `0` when every cell is missing. -/
def rowSum (months : List (Option ℚ)) : ℚ :=
  (months.filterMap id).sum

/-- Line 148 of src/sbu/dataframe.py: `df[('Month', 'sum')] = df['Month'].sum(axis=1)`. -/
def addSumColumn (rows : List UserRow) : List FullRow :=
  rows.map (fun r => ⟨r.username, r.project, r.quota, r.active, r.months, some (rowSum r.months)⟩)

/-- pandas `df['Month'].sum(axis=0)` for month column `i`: skipna sum down the
column (a missing cell, or a missing column in a ragged row, contributes 0). -/
def columnSum (rows : List FullRow) (i : ℕ) : ℚ :=
  (rows.map (fun r =>
    match r.months.get? i with
    | some (some v) => v
    | _ => 0)).sum

/-- The `('Month', 'sum')` entry of `df['Month'].sum(axis=0)`: the skipna sum
of the per-row sums. -/
def msumTotal (rows : List FullRow) : ℚ :=
  (rows.map (fun r =>
    match r.msum with
    | some v => v
    | none => 0)).sum

/-- `_get_total_sbu_requested` (src/sbu/dataframe.py lines 495-498):
`slice_ = df[SBU_REQUESTED]; slice_.groupby(slice_.index).aggregate(sum).sum()`.
The grouping key is the USERNAME index, so each group is one user's quota;
each group is skipna-summed (an all-NaN group yields 0) and the group sums are
skipna-summed again.  `List.dedup` supplies the distinct groupby keys (pandas
orders them sorted; only their set matters, everything is summed). -/
def _get_total_sbu_requested (rows : List FullRow) : ℚ :=
  let slice := rows.map (fun r => (r.username, r.quota))
  let keys := (slice.map Prod.fst).dedup
  (keys.map (fun k =>
    (((slice.filter (fun p => p.1 = k)).filterMap Prod.snd)).sum)).sum

/-- Lines 154-156 of src/sbu/dataframe.py: `df[ACTIVE] = False;`
`df.loc[df[('Month', 'sum')] > 1.0, ACTIVE] = True` (NaN compares false). -/
def markActive (rows : List FullRow) : List FullRow :=
  rows.map (fun r =>
    { r with active :=
        match r.msum with
        | some v => decide ((1 : ℚ) < v)
        | none => false })

/-- The summary tail of `get_sbu` (src/sbu/dataframe.py lines 147-156), after
the per-month columns have been filled: add the `('Month', 'sum')` column,
append the `sum` row (its months are the column sums, its project is `'sum'`,
its quota is `_get_total_sbu_requested` of the frame that already contains the
NaN `sum` row), then mark the active rows.  `numMonths` is the number of
`Month` columns (uniform across rows). -/
def get_sbu (rows : List UserRow) (numMonths : ℕ) : List FullRow :=
  let df1 := addSumColumn rows
  let sumRow : FullRow :=
    ⟨"sum", "sum", none, false,
      (List.range numMonths).map (fun i => some (columnSum df1 i)),
      some (msumTotal df1)⟩
  let df2 := df1 ++ [sumRow]
  let total := _get_total_sbu_requested df2
  let df3 := df2.map (fun r =>
    if r.username = "sum" then { r with quota := some total } else r)
  markActive df3

/-- The `Month` column group of one row of the project-level DataFrame fed to
`get_agregated_sbu` (src/sbu/dataframe_postprocess.py lines 62-110): the
per-month cells and the `('Month', 'sum')` cell; the `info` columns are not
touched by that function. -/
structure MonthRow where
  months : List (Option ℚ)
  msum : Option ℚ
deriving DecidableEq

/-- pandas `DataFrame.cumsum(axis=1)` with the default `skipna=True` over one
row (this is what `np.cumsum(ret['Month'], axis=1)` dispatches to): a NaN cell
stays NaN in the output, and the running total skips it. -/
def cumsumSkipna (acc : ℚ) : List (Option ℚ) → List (Option ℚ)
  | [] => []
  | none :: t => none :: cumsumSkipna acc t
  | some v :: t => some (acc + v) :: cumsumSkipna (acc + v) t

/-- `get_agregated_sbu` (src/sbu/dataframe_postprocess.py lines 104-110):
delete the `('Month', 'sum')` column, cumulative-sum the `Month` columns per
row, and set `('Month', 'sum')` to the last `Month` column
(`ret['Month'].iloc[:, -1]`; the source presumes at least one month column). -/
def get_agregated_sbu (df : List MonthRow) : List MonthRow :=
  df.map (fun r =>
    let m := cumsumSkipna 0 r.months
    ⟨m, m.getLastD none⟩)

/-- The columns of a project row read by `get_percentage_sbu`
(src/sbu/dataframe_postprocess.py lines 113-163): the quota cell
`('info', 'SBU requested')` and the `Month` cells. -/
structure PctRow where
  quota : Option ℚ
  months : List (Option ℚ)
deriving DecidableEq

/-- numpy/pandas round-half-to-even on a rational. -/
def bankersRound (q : ℚ) : ℤ :=
  if q - ⌊q⌋ < 1/2 then ⌊q⌋
  else if q - ⌊q⌋ = 1/2 then (if ⌊q⌋ % 2 = 0 then ⌊q⌋ else ⌊q⌋ + 1)
  else ⌊q⌋ + 1

/-- pandas `.round(2)`: round half-to-even at the second decimal. -/
def round2 (q : ℚ) : ℚ :=
  (bankersRound (q * 100) : ℚ) / 100

/-- `.round(2)` on one cell; NaN stays NaN. -/
def roundCell2 (c : Option ℚ) : Option ℚ :=
  c.map round2

/-- One cell of `ret['Month'] /= ret[SBU_REQUESTED].values[:, None]`: NaN in
either operand gives NaN.  (A present quota of exactly 0 gives float inf in
Python; every statement below about this definition assumes a nonzero quota.) -/
def divCell (c : Option ℚ) (q : Option ℚ) : Option ℚ :=
  match c, q with
  | some a, some b => some (a / b)
  | _, _ => none

/-- `get_percentage_sbu` (src/sbu/dataframe_postprocess.py lines 160-163):
divide each `Month` cell by the row's quota and round to 2 decimals.  Note
there is NO multiplication by 100 in this function (unlike the unused
historical copy in src/sbu/dataframe.py lines 284-288); the 100x scaling
happens later, in `sbu.plot_fig.pre_process_df`. -/
def get_percentage_sbu (df : List PctRow) : List PctRow :=
  df.map (fun r => ⟨r.quota, r.months.map (fun c => roundCell2 (divCell c r.quota))⟩)

/-- A row of `df_tmp = df.set_index(PROJECT)` as read by `_get_active_name`
(src/sbu/dataframe_postprocess.py lines 51-59 and 166-176).  `set_index`
discards the username index, so only the project key and the
`('info', 'name')` / `('info', 'active')` columns remain available; `username`
is kept in this model purely to witness that it is NOT what the code emits. -/
structure URow where
  username : String
  project : String
  name : String
  active : Bool
deriving DecidableEq

/-- `_get_active_name` (src/sbu/dataframe_postprocess.py lines 166-176): the
empty tuple for the synthetic `sum` index, otherwise the `('info', 'name')`
display names of the project's rows whose `('info', 'active')` flag is set
(the scalar branch for a single-member project has the same meaning). -/
def _get_active_name (df : List URow) (index : String) : List String :=
  if index = "sum" then []
  else ((df.filter (fun r => r.project = index)).filter (fun r => r.active)).map (fun r => r.name)

/-- The `('info', 'active')` column built by `get_sbu_per_project`
(src/sbu/dataframe_postprocess.py line 57):
`ret[ACTIVE] = [_get_active_name(df_tmp, i) for i in ret.index]`, one entry
per distinct project of the groupby (pandas sorts the group keys; the order is
immaterial to the per-row content stated below). -/
def get_sbu_per_project_active (df : List URow) : List (String × List String) :=
  ((df.map (fun r => r.project)).dedup).map (fun p => (p, _get_active_name df p))

/-- `validate_usernames` (src/sbu/parse_yaml.py lines 113-149), from the point
where `usage` holds the usernames printed by `accinfo` below the
`"# Users linked to this account"` marker.  The Python code concatenates the
lines `"\n- name"` (reported by accinfo, absent from the roster) and
`"\n+ name"` (in the roster, not reported) into `name_diff` and raises a
`ValueError` carrying them iff that string is nonempty; since each line is
nonempty, the string is empty iff both filtered lists are, and the error
payload here is that pair of lists. -/
def validate_usernames (usage roster : List String) :
    Except (List String × List String) Unit :=
  let missing := usage.filter (fun n => !(roster.contains n))
  let extra := roster.filter (fun n => !(usage.contains n))
  if missing = [] ∧ extra = [] then .ok () else .error (missing, extra)

/-- A Python value as handled by `sbu.globvar` (src/sbu/globvar.py): the
module's own values are 2-tuples of strings; `update_globals` must also cope
with arbitrary caller input, modelled by the remaining constructors. -/
inductive PyVal where
  | str (s : String) : PyVal
  | int (i : Int) : PyVal
  | tuple (elems : List PyVal) : PyVal
  | list (elems : List PyVal) : PyVal

/-- `v.__class__.__name__` for a `PyVal`. -/
def pyTypeName : PyVal → String
  | .str _ => "str"
  | .int _ => "int"
  | .tuple _ => "tuple"
  | .list _ => "list"

/-- `isinstance(v, Hashable)`: type-level, so a `tuple` passes regardless of
its contents, while a `list` does not. -/
def isHashable : PyVal → Bool
  | .list _ => false
  | _ => true

/-- `_by_values` (src/sbu/globvar.py lines 26-32): the last element of the
tuple, lowered when it is a string.  The values this module sorts are always
2-tuples; for any other shape the key is modelled as the empty string. -/
def _by_values : PyVal → String
  | .tuple l =>
    match l.getLast? with
    | some (.str s) => s.toLower
    | _ => ""
  | _ => ""

/-- Boolean lexicographic comparison of strings by character codes, used as
the key order of Python's stable `sorted`. -/
def charListLe : List Char → List Char → Bool
  | [], _ => true
  | _ :: _, [] => false
  | x :: xs, y :: ys =>
    if x.val < y.val then true
    else if y.val < x.val then false
    else charListLe xs ys

/-- Stable insertion of a value into a key-sorted list (equal keys keep their
original relative order, as Python's `sorted` guarantees). -/
def orderedInsertKey (v : PyVal) : List PyVal → List PyVal
  | [] => [v]
  | a :: t =>
    if charListLe (_by_values v).data (_by_values a).data then v :: a :: t
    else a :: orderedInsertKey v t

/-- Stable insertion sort by `_by_values`, modelling
`sorted(_GLOBVAR.values(), key=_by_values)`. -/
def sortByValues : List PyVal → List PyVal
  | [] => []
  | a :: t => orderedInsertKey a (sortByValues t)

/-- `_populate_globals` (src/sbu/globvar.py lines 96-105): recompute the
module-level names `ACTIVE, NAME, PI, PROJECT, SBU_REQUESTED, TMP` as the
sorted values of `_GLOBVAR`; the result list holds them in that order. -/
def _populate_globals (globvar : List (String × PyVal)) : List PyVal :=
  sortByValues (globvar.map Prod.snd)

/-- The mutable module state of `sbu.globvar`: the `_GLOBVAR` dict (insertion
ordered) and the derived module-level column keys. -/
structure GlobState where
  globvar : List (String × PyVal)
  derived : List PyVal

/-- The validation applied to one value of `column_dict` by the first loop of
`update_globals` (src/sbu/globvar.py lines 81-89): not a tuple, wrong length,
or a non-hashable component each produce the corresponding exception. -/
def validateValue (v : PyVal) : Option PyErr :=
  match v with
  | .tuple l =>
    if l.length = 2 then
      if l.all isHashable then none
      else some (.typeError ("Invalid type: '" ++ pyTypeName (.tuple l) ++
        "'. A hashable was expected."))
    else
      some (.valueError ("Invalid tuple length: '" ++ Nat.repr l.length ++
        "'. '2' hashables were expected."))
  | _ =>
    some (.typeError ("Invalid type: '" ++ pyTypeName v ++
      "'. A 'tuple' consisting of two hashables was expected."))

/-- The first exception raised by the validation loop, if any. -/
def firstError : List (String × PyVal) → Option PyErr
  | [] => none
  | (_, v) :: t =>
    match validateValue v with
    | some e => some e
    | none => firstError t

/-- `dict.__setitem__` on an insertion-ordered dict: overwrite in place, or
append a new key. -/
def dictSet : List (String × PyVal) → String → PyVal → List (String × PyVal)
  | [], k, v => [(k, v)]
  | (k', v') :: t, k, v =>
    if k' = k then (k, v) :: t else (k', v') :: dictSet t k v

/-- `update_globals` (src/sbu/globvar.py lines 50-93): the first loop
validates every value and raises on the first offender BEFORE the second loop
performs any assignment into `_GLOBVAR`; on success the second loop writes all
entries and `_populate_globals` refreshes the derived names.  The result pairs
the module state after the call with the exception, if one was raised. -/
def update_globals (st : GlobState) (column_dict : List (String × PyVal)) :
    GlobState × Option PyErr :=
  match firstError column_dict with
  | some e => (st, some e)
  | none =>
    let g := column_dict.foldl (fun acc kv => dictSet acc kv.1 kv.2) st.globvar
    (⟨g, _populate_globals g⟩, none)

/-- The default `_GLOBVAR` of src/sbu/globvar.py lines 37-44. -/
def globvarDefault : List (String × PyVal) :=
  [("ACTIVE", .tuple [.str "info", .str "active"]),
   ("NAME", .tuple [.str "info", .str "name"]),
   ("PI", .tuple [.str "info", .str "PI"]),
   ("PROJECT", .tuple [.str "info", .str "project"]),
   ("SBU_REQUESTED", .tuple [.str "info", .str "SBU requested"]),
   ("TMP", .tuple [.str "info", .str "tmp"])]

/-- The module state of `sbu.globvar` right after import (line 47). -/
def globStateDefault : GlobState :=
  ⟨globvarDefault, _populate_globals globvarDefault⟩

/-- A valid interval bound in the sense of the spec's Date Range Resolver
contract: absent, an integer year, or a string in `YYYY`, `MM-YYYY` or
`DD-MM-YYYY` shape (at most two dash separators). -/
inductive ValidBound : DateInput → Prop
  | absent : ValidBound .absent
  | int (i : Int) (h : 0 ≤ i) : ValidBound (.int i)
  | str (s : String) (h : dashCount s ≤ 2) : ValidBound (.str s)

/-- C2: on `(None, None)` the resolver's start date is the first day of the
year AFTER the current one: with the current date in year 2026 it returns
start `01-01-2027`, not the `01-01-2026` that the claim (and the function's
own docstring, "Defaults to the current year", line 353) promises. -/
theorem get_date_range_none_none_next_year :
    get_date_range ⟨"10", 2026⟩ .absent .absent = .ok ("01-01-2027", "01-10-2027") ∧
    ("01-01-2027" : String) ≠ "01-01-2026" := by
  constructor
  · rfl
  · decide

/-- C3 counterexample: a cumulative value of 250 against a quota of 1000 comes
out as 0.25, not the 25 the claim asserts — `get_percentage_sbu` never
multiplies by 100. -/
theorem get_percentage_sbu_counterexample :
    get_percentage_sbu [⟨some 1000, [some 250]⟩] = [⟨some 1000, [some (1/4)]⟩] ∧
    ((1 : ℚ)/4) ≠ 25 := by
  constructor
  · simp only [get_percentage_sbu, List.map_cons, List.map_nil, divCell, roundCell2, Option.map_some]
    norm_num [round2, bankersRound]
  · norm_num

/-- C3 (amended): for every project row, `get_percentage_sbu` divides each
cumulative `Month` value by that row's quota and rounds the quotient to two
decimals, with no multiplication by 100. -/
theorem get_percentage_sbu_cell (df : List PctRow) (i j : ℕ) (r : PctRow) (q v : ℚ)
    (hr : df[i]? = some r) (hq : r.quota = some q) (hq0 : q ≠ 0)
    (hv : r.months[j]? = some (some v)) :
    ∃ r', (get_percentage_sbu df)[i]? = some r' ∧ r'.quota = some q ∧
      r'.months[j]? = some (some (round2 (v / q))) := by
  refine ⟨⟨r.quota, r.months.map (fun c => roundCell2 (divCell c r.quota))⟩, ?_, hq, ?_⟩
  · simp [get_percentage_sbu, List.getElem?_map, hr]
  · simp [List.getElem?_map, hv, hq, divCell, roundCell2]

/-- C3 witness: the amended statement evaluated on the quota-1000 row with
cumulative value 250; the stored cell is 0.25. -/
theorem get_percentage_sbu_cell_witness :
    (∃ r', (get_percentage_sbu [⟨some 1000, [some 250]⟩])[0]? = some r' ∧
      r'.quota = some 1000 ∧
      r'.months[0]? = some (some (round2 (250 / 1000)))) ∧
    round2 (250 / 1000) = 1/4 :=
  ⟨get_percentage_sbu_cell [⟨some 1000, [some 250]⟩] 0 0 ⟨some 1000, [some 250]⟩ 1000 250
      rfl rfl (by norm_num) rfl,
    by norm_num [round2, bankersRound]⟩

/-- C5 counterexample: for a project A whose single member has username `u1`,
display name `Donald Duck` and an active flag, the rollup's `is_active` cell
is the display-name tuple `("Donald Duck",)`, not the username tuple
`("u1",)` the claim asserts (the username index is discarded by
`set_index(PROJECT)` before `_get_active_name` runs). -/
theorem get_sbu_per_project_active_counterexample :
    get_sbu_per_project_active [⟨"u1", "A", "Donald Duck", true⟩] = [("A", ["Donald Duck"])] ∧
    (["Donald Duck"] : List String) ≠ ["u1"] := by
  constructor
  · rfl
  · decide

/-- C5 (amended): in the project rollup, the `is_active` cell of each project
row is the tuple of DISPLAY NAMES (the `('info', 'name')` column) of that
project's active members, and the synthetic `sum` row gets the empty tuple. -/
theorem get_active_name_spec (df : List URow) (p : String) :
    _get_active_name df "sum" = [] ∧
    (∀ cell ∈ get_sbu_per_project_active df, cell.2 = _get_active_name df cell.1) ∧
    (∀ x, x ∈ _get_active_name df p ↔
      p ≠ "sum" ∧ ∃ r, r ∈ df ∧ r.project = p ∧ r.active = true ∧ r.name = x) := by
  refine ⟨by simp [_get_active_name], ?_, ?_⟩
  · intro cell hcell
    simp only [get_sbu_per_project_active, List.mem_map] at hcell
    obtain ⟨k, _, rfl⟩ := hcell
    rfl
  · intro x
    by_cases hp : p = "sum"
    · subst hp
      simp [_get_active_name]
    · simp only [_get_active_name, if_neg hp, List.mem_map, List.mem_filter]
      constructor
      · rintro ⟨r, ⟨⟨hr, hproj⟩, hact⟩, rfl⟩
        exact ⟨hp, r, hr, by simpa using hproj, hact, rfl⟩
      · rintro ⟨-, r, hr, hproj, hact, rfl⟩
        exact ⟨r, ⟨⟨hr, by simpa using hproj⟩, hact⟩, rfl⟩

/-- C5 witness: the amended statement evaluated on a two-member project with
one active member `u1` whose display name is `Donald Duck`. -/
theorem get_active_name_spec_witness :
    _get_active_name [⟨"u1", "A", "Donald Duck", true⟩, ⟨"u2", "A", "Scrooge McDuck", false⟩]
      "sum" = [] ∧
    (∀ cell ∈ get_sbu_per_project_active
        [⟨"u1", "A", "Donald Duck", true⟩, ⟨"u2", "A", "Scrooge McDuck", false⟩],
      cell.2 = _get_active_name
        [⟨"u1", "A", "Donald Duck", true⟩, ⟨"u2", "A", "Scrooge McDuck", false⟩] cell.1) ∧
    (∀ x, x ∈ _get_active_name
        [⟨"u1", "A", "Donald Duck", true⟩, ⟨"u2", "A", "Scrooge McDuck", false⟩] "A" ↔
      ("A" : String) ≠ "sum" ∧ ∃ r,
        r ∈ [(⟨"u1", "A", "Donald Duck", true⟩ : URow), ⟨"u2", "A", "Scrooge McDuck", false⟩] ∧
        r.project = "A" ∧ r.active = true ∧ r.name = x) :=
  get_active_name_spec
    [⟨"u1", "A", "Donald Duck", true⟩, ⟨"u2", "A", "Scrooge McDuck", false⟩] "A"

/-- C7: after `get_sbu` completes, a row's `('info', 'active')` flag is true
iff that row's `('Month', 'sum')` cell strictly exceeds 1.0; every other row
(including any NaN sum) is inactive. -/
theorem get_sbu_active_iff (rows : List UserRow) (numMonths : ℕ) (r : FullRow)
    (h : r ∈ get_sbu rows numMonths) :
    r.active = true ↔ ∃ v, r.msum = some v ∧ (1 : ℚ) < v := by
  simp only [get_sbu, markActive, List.mem_map] at h
  obtain ⟨r0, -, rfl⟩ := h
  cases hm : r0.msum with
  | none => simp [hm]
  | some v => simp [hm]

/-- C7 witness: the active-flag rule evaluated on a one-user roster whose
monthly usage is 5 hours; the user row ends active with sum 5 > 1. -/
theorem get_sbu_active_iff_witness :
    ((⟨"user1", "A", some 1000, true, [some 5], some 5⟩ : FullRow) ∈
      get_sbu [⟨"user1", "A", some 1000, false, [some 5]⟩] 1) ∧
    ((⟨"user1", "A", some 1000, true, [some 5], some 5⟩ : FullRow).active = true ↔
      ∃ v, (⟨"user1", "A", some 1000, true, [some 5], some 5⟩ : FullRow).msum = some v ∧
        (1 : ℚ) < v) := by
  have heval : get_sbu [⟨"user1", "A", some 1000, false, [some 5]⟩] 1 =
      [⟨"user1", "A", some 1000, true, [some 5], some 5⟩,
       ⟨"sum", "sum", some 1000, true, [some 5], some 5⟩] := by
    simp [get_sbu, addSumColumn, markActive, _get_total_sbu_requested, rowSum, columnSum,
      msumTotal, List.range_succ]
  have hmem : (⟨"user1", "A", some 1000, true, [some 5], some 5⟩ : FullRow) ∈
      get_sbu [⟨"user1", "A", some 1000, false, [some 5]⟩] 1 := by
    rw [heval]
    exact List.mem_cons_self _ _
  exact ⟨hmem,
    get_sbu_active_iff [⟨"user1", "A", some 1000, false, [some 5]⟩] 1 _ hmem⟩

/-- C9: `validate_usernames` returns normally iff the set of usernames
reported by `accinfo` equals the set of usernames in the roster index, and on
a mismatch the raised error enumerates exactly the symmetric difference: the
`- name` lines are the names reported but not rostered, the `+ name` lines the
names rostered but not reported. -/
theorem validate_usernames_spec (usage roster : List String) :
    ((validate_usernames usage roster = .ok ()) ↔ (∀ x, x ∈ usage ↔ x ∈ roster)) ∧
    (∀ m e, validate_usernames usage roster = .error (m, e) →
      ∀ x, (x ∈ m ↔ x ∈ usage ∧ x ∉ roster) ∧ (x ∈ e ↔ x ∈ roster ∧ x ∉ usage)) := by
  by_cases hc : usage.filter (fun n => !(roster.contains n)) = [] ∧
      roster.filter (fun n => !(usage.contains n)) = []
  · have hok : validate_usernames usage roster = .ok () := by
      simp only [validate_usernames]
      rw [if_pos hc]
    have h1 : ∀ x ∈ usage, x ∈ roster := by
      simpa [List.filter_eq_nil_iff] using hc.1
    have h2 : ∀ x ∈ roster, x ∈ usage := by
      simpa [List.filter_eq_nil_iff] using hc.2
    refine ⟨⟨fun _ x => ⟨fun hx => h1 x hx, fun hx => h2 x hx⟩, fun _ => hok⟩, ?_⟩
    intro m e hme
    rw [hok] at hme
    simp at hme
  · have herr : validate_usernames usage roster =
        .error (usage.filter (fun n => !(roster.contains n)),
                roster.filter (fun n => !(usage.contains n))) := by
      simp only [validate_usernames]
      rw [if_neg hc]
    constructor
    · rw [herr]
      refine ⟨fun h => absurd h (by simp), fun hall => absurd ?_ hc⟩
      refine ⟨List.filter_eq_nil_iff.mpr ?_, List.filter_eq_nil_iff.mpr ?_⟩
      · intro x hx
        simp [List.elem_iff]
        exact (hall x).mp hx
      · intro x hx
        simp [List.elem_iff]
        exact (hall x).mpr hx
    · intro m e hme x
      rw [herr] at hme
      injection hme with hme
      rw [Prod.mk.injEq] at hme
      obtain ⟨h1, h2⟩ := hme
      subst h1
      subst h2
      constructor <;> simp [List.mem_filter]

/-- C9 witness: a roster of `u1, u2` against an accinfo report of `u1, u3`:
the error lists exactly `- u3` and `+ u2`; with matching sets the call
returns normally. -/
theorem validate_usernames_spec_witness :
    ((validate_usernames ["u1", "u3"] ["u1", "u2"] = .ok ()) ↔
      (∀ x, x ∈ (["u1", "u3"] : List String) ↔ x ∈ (["u1", "u2"] : List String))) ∧
    (∀ m e, validate_usernames ["u1", "u3"] ["u1", "u2"] = .error (m, e) →
      ∀ x, (x ∈ m ↔ x ∈ (["u1", "u3"] : List String) ∧ x ∉ (["u1", "u2"] : List String)) ∧
        (x ∈ e ↔ x ∈ (["u1", "u2"] : List String) ∧ x ∉ (["u1", "u3"] : List String))) :=
  validate_usernames_spec ["u1", "u3"] ["u1", "u2"]

/-- C10: `update_globals` validates every value of its input dict before
mutating anything, so whenever it raises, the `_GLOBVAR` alias table and the
derived module-level column keys are both left unchanged. -/
theorem update_globals_atomic (st : GlobState) (column_dict : List (String × PyVal))
    (st' : GlobState) (e : PyErr) (h : update_globals st column_dict = (st', some e)) :
    st'.globvar = st.globvar ∧ st'.derived = st.derived := by
  unfold update_globals at h
  cases hf : firstError column_dict with
  | none => rw [hf] at h; simp at h
  | some e' =>
    rw [hf] at h
    obtain ⟨rfl, -⟩ := Prod.mk.injEq .. ▸ And.intro (congrArg Prod.fst h) (congrArg Prod.snd h)
    exact ⟨rfl, rfl⟩

/-- C10 witness: feeding the non-tuple value `5` for `ACTIVE` raises the
`TypeError` of src/sbu/globvar.py line 84 and leaves the default module state
untouched. -/
theorem update_globals_atomic_witness :
    update_globals globStateDefault [("ACTIVE", PyVal.int 5)] =
      (globStateDefault, some (PyErr.typeError
        "Invalid type: 'int'. A 'tuple' consisting of two hashables was expected.")) ∧
    globStateDefault.globvar = globStateDefault.globvar ∧
    globStateDefault.derived = globStateDefault.derived :=
  ⟨rfl, update_globals_atomic globStateDefault [("ACTIVE", PyVal.int 5)]
    globStateDefault _ rfl⟩

/-- Each pandas groupby-then-sum over a series with pairwise-distinct keys is
just the plain sum of the series (missing values as 0): the grouping
deduplicates nothing. -/
theorem groupSum_aux (slice : List (String × Option ℚ)) (h : (slice.map Prod.fst).Nodup) :
    ((slice.map Prod.fst).map (fun k =>
        ((slice.filter (fun p => p.1 = k)).filterMap Prod.snd).sum)).sum
      = (slice.map (fun p => p.2.getD 0)).sum := by
  induction slice with
  | nil => simp
  | cons a t ih =>
    obtain ⟨k, v⟩ := a
    simp only [List.map_cons, List.nodup_cons, List.mem_map] at h
    obtain ⟨hk, ht⟩ := h
    have hnil : t.filter (fun p => (decide (p.1 = k))) = [] := by
      rw [List.filter_eq_nil_iff]
      intro p hp
      simp only [decide_eq_true_eq]
      exact fun hpk => hk ⟨p, hp, hpk⟩
    have hhead : (((k, v) :: t).filter (fun p => decide (p.1 = k))) = [(k, v)] := by
      rw [List.filter_cons_of_pos (by simp), hnil]
    have hrest : (t.map Prod.fst).map (fun k' =>
        ((((k, v) :: t).filter (fun p => decide (p.1 = k'))).filterMap Prod.snd).sum)
        = (t.map Prod.fst).map (fun k' =>
        ((t.filter (fun p => decide (p.1 = k'))).filterMap Prod.snd).sum) := by
      apply List.map_congr_left
      intro k' hk'
      obtain ⟨p, hp, rfl⟩ := List.mem_map.mp hk'
      have hne : ¬((k : String) = p.1) := fun he => hk ⟨p, hp, he.symm⟩
      rw [List.filter_cons_of_neg (by simpa using hne)]
    simp only [List.map_cons, List.sum_cons]
    rw [hhead, hrest, ih ht]
    cases v <;> simp

/-- C1 counterexample: two users sharing one project of quota 1000 end with a
`sum` row whose `('info', 'SBU requested')` cell is 2000, not the 1000 the
claim asserts — `_get_total_sbu_requested` groups by the username index, so
each member's copy of the project quota is counted. -/
theorem get_sbu_total_quota_counterexample :
    get_sbu [⟨"user1", "A", some 1000, false, [some 0]⟩,
             ⟨"user2", "A", some 1000, false, [some 0]⟩] 1 =
      [⟨"user1", "A", some 1000, false, [some 0], some 0⟩,
       ⟨"user2", "A", some 1000, false, [some 0], some 0⟩,
       ⟨"sum", "sum", some 2000, false, [some 0], some 0⟩] ∧
    (some (2000 : ℚ)) ≠ some 1000 := by
  constructor
  · simp [get_sbu, addSumColumn, markActive, _get_total_sbu_requested, rowSum, columnSum,
      msumTotal, List.range_succ]
    norm_num
  · intro h
    exact absurd (Option.some.inj h) (by norm_num)

/-- C1 (amended): after `get_sbu` completes, the `sum` row's
`('info', 'SBU requested')` cell equals the sum of the quotas of ALL user
rows — each project's quota is counted once per member, not once per
project. -/
theorem get_sbu_total_quota_per_user (rows : List UserRow) (numMonths : ℕ)
    (hnd : (rows.map (fun r => r.username)).Nodup)
    (hs : "sum" ∉ rows.map (fun r => r.username)) :
    ∃ srow : FullRow, (get_sbu rows numMonths).getLast? = some srow ∧
      srow.username = "sum" ∧ srow.project = "sum" ∧
      srow.quota = some ((rows.map (fun r => (r.quota).getD 0)).sum) := by
  have hslice : (addSumColumn rows ++
      [(⟨"sum", "sum", none, false,
        (List.range numMonths).map (fun i => some (columnSum (addSumColumn rows) i)),
        some (msumTotal (addSumColumn rows))⟩ : FullRow)]).map
        (fun r => (r.username, r.quota))
      = rows.map (fun r => (r.username, r.quota)) ++ [("sum", none)] := by
    simp [addSumColumn, List.map_map]
  have hkeysnd : ((rows.map (fun r => (r.username, r.quota)) ++
      [(("sum" : String), (none : Option ℚ))]).map Prod.fst).Nodup := by
    rw [List.map_append]
    rw [List.nodup_append]
    refine ⟨by simpa [List.map_map, Function.comp] using hnd, by simp, ?_⟩
    intro a ha
    simp only [List.map_map, List.mem_map, Function.comp] at ha
    obtain ⟨r, hr, rfl⟩ := ha
    simp only [List.map_cons, List.map_nil, List.mem_singleton]
    exact fun he => hs (he ▸ List.mem_map_of_mem (fun r => r.username) hr)
  have htotal : _get_total_sbu_requested (addSumColumn rows ++
      [(⟨"sum", "sum", none, false,
        (List.range numMonths).map (fun i => some (columnSum (addSumColumn rows) i)),
        some (msumTotal (addSumColumn rows))⟩ : FullRow)])
      = (rows.map (fun r => (r.quota).getD 0)).sum := by
    simp only [_get_total_sbu_requested, hslice, List.dedup_eq_self.mpr hkeysnd]
    rw [groupSum_aux _ hkeysnd]
    simp
    rfl
  refine ⟨⟨"sum", "sum", some ((rows.map (fun r => (r.quota).getD 0)).sum),
    decide ((1 : ℚ) < msumTotal (addSumColumn rows)),
    (List.range numMonths).map (fun i => some (columnSum (addSumColumn rows) i)),
    some (msumTotal (addSumColumn rows))⟩, ?_, rfl, rfl, rfl⟩
  simp only [get_sbu, markActive, List.map_map, List.map_append, List.map_cons, List.map_nil,
    List.getLast?_concat, Function.comp, Option.some.injEq]
  simp only [if_true, htotal]

/-- C1 witness: the amended statement evaluated on the two-user roster of the
counterexample; the stored total is the per-user sum 1000 + 1000. -/
theorem get_sbu_total_quota_per_user_witness :
    (([⟨"user1", "A", some 1000, false, [some 0]⟩,
       ⟨"user2", "A", some 1000, false, [some 0]⟩] : List UserRow).map
        (fun r => r.username)).Nodup ∧
    "sum" ∉ ([⟨"user1", "A", some 1000, false, [some 0]⟩,
       ⟨"user2", "A", some 1000, false, [some 0]⟩] : List UserRow).map
        (fun r => r.username) ∧
    ∃ srow : FullRow,
      (get_sbu [⟨"user1", "A", some 1000, false, [some 0]⟩,
                ⟨"user2", "A", some 1000, false, [some 0]⟩] 1).getLast? = some srow ∧
      srow.username = "sum" ∧ srow.project = "sum" ∧
      srow.quota = some ((([⟨"user1", "A", some 1000, false, [some 0]⟩,
        ⟨"user2", "A", some 1000, false, [some 0]⟩] : List UserRow).map
          (fun r => (r.quota).getD 0)).sum) :=
  ⟨by decide, by decide, get_sbu_total_quota_per_user _ 1 (by decide) (by decide)⟩

/-- The skipna cumulative sum keeps the length of the row. -/
theorem cumsumSkipna_length (ms : List (Option ℚ)) :
    ∀ acc, (cumsumSkipna acc ms).length = ms.length := by
  induction ms with
  | nil => intro acc; rfl
  | cons c t ih =>
    intro acc
    cases c <;> simp [cumsumSkipna, ih]

/-- A present cell of the skipna cumulative sum holds the accumulator plus the
skipna sum of the prefix up to and including that cell. -/
theorem cumsumSkipna_get_some (ms : List (Option ℚ)) :
    ∀ acc j v, ms[j]? = some (some v) →
      (cumsumSkipna acc ms)[j]? = some (some (acc + rowSum (ms.take (j + 1)))) := by
  induction ms with
  | nil => intro acc j v h; simp at h
  | cons c t ih =>
    intro acc j v h
    cases j with
    | zero =>
      simp only [List.getElem?_cons_zero, Option.some.injEq] at h
      subst h
      simp [cumsumSkipna, rowSum]
    | succ j =>
      simp only [List.getElem?_cons_succ] at h
      cases c with
      | none =>
        simpa [cumsumSkipna, rowSum] using ih acc j v h
      | some w =>
        have := ih (acc + w) j v h
        simpa [cumsumSkipna, rowSum, add_assoc] using this

/-- A NaN cell stays NaN in the skipna cumulative sum. -/
theorem cumsumSkipna_get_none (ms : List (Option ℚ)) :
    ∀ (acc : ℚ) (j : ℕ), ms[j]? = some none → (cumsumSkipna acc ms)[j]? = some none := by
  induction ms with
  | nil => intro acc j h; simp at h
  | cons c t ih =>
    intro acc j h
    cases j with
    | zero =>
      simp only [List.getElem?_cons_zero, Option.some.injEq] at h
      subst h
      simp [cumsumSkipna]
    | succ j =>
      simp only [List.getElem?_cons_succ] at h
      cases c with
      | none => simpa [cumsumSkipna] using ih acc j h
      | some w => simpa [cumsumSkipna] using ih (acc + w) j h

/-- On an all-NaN row the skipna cumulative sum is the identity. -/
theorem cumsumSkipna_all_none (ms : List (Option ℚ)) (h : ∀ c ∈ ms, c = none) :
    ∀ acc, cumsumSkipna acc ms = ms := by
  induction ms with
  | nil => intro acc; rfl
  | cons c t ih =>
    intro acc
    have hc : c = none := h c (List.mem_cons_self c t)
    subst hc
    simp only [cumsumSkipna]
    rw [ih (fun c hc => h c (List.mem_cons_of_mem _ hc)) acc]

/-- When the row's last cell is present, the last cell of the skipna
cumulative sum is the accumulator plus the skipna total of the row. -/
theorem cumsumSkipna_getLast_some (ms : List (Option ℚ)) (acc v : ℚ)
    (h : ms.getLast? = some (some v)) :
    (cumsumSkipna acc ms).getLastD none = some (acc + rowSum ms) := by
  have hne : ms ≠ [] := by
    intro h0
    subst h0
    simp at h
  have hlen : 1 ≤ ms.length := List.length_pos.mpr hne
  have hidx : ms[ms.length - 1]? = some (some v) := by
    rw [← List.getLast?_eq_getElem?]
    exact h
  have hcell := cumsumSkipna_get_some ms acc (ms.length - 1) v hidx
  have htake : ms.length - 1 + 1 = ms.length := by omega
  rw [htake, List.take_length] at hcell
  rw [List.getLastD_eq_getLast?, List.getLast?_eq_getElem?, cumsumSkipna_length ms acc, hcell]
  rfl

/-- C4 counterexample: for a row whose months are `[100, NaN]` (so its
original row total is 100), `get_agregated_sbu` stores `('Month', 'sum') =
NaN`, not the original row total: the sum column is the LAST cumulative cell,
and a trailing "no data" cell makes it "no data". -/
theorem get_agregated_sbu_counterexample :
    get_agregated_sbu [⟨[some 100, none], some 100⟩] = [⟨[some 100, none], none⟩] ∧
    rowSum [some 100, none] = 100 ∧ (none : Option ℚ) ≠ some (100 : ℚ) := by
  refine ⟨?_, ?_, by simp⟩
  · simp [get_agregated_sbu, cumsumSkipna]
  · simp [rowSum]

/-- C4 (amended): `get_agregated_sbu` replaces each row's `Month` cells by the
left-to-right skipna running sum of that row's own cells (a present cell `j`
becomes the sum of the present values among the first `j+1` cells; a "no
data" cell stays "no data"), and sets `('Month', 'sum')` to the LAST
cumulative cell — which equals the original row total whenever the row's last
month cell is present, and is "no data" for an all-"no data" row (such a row
is left entirely "no data"). -/
theorem get_agregated_sbu_spec (df : List MonthRow) (i : ℕ) (r : MonthRow)
    (h : df[i]? = some r) :
    ∃ r', (get_agregated_sbu df)[i]? = some r' ∧
      (∀ (j : ℕ) (v : ℚ), r.months[j]? = some (some v) →
        r'.months[j]? = some (some (rowSum (r.months.take (j + 1))))) ∧
      (∀ (j : ℕ), r.months[j]? = some none → r'.months[j]? = some none) ∧
      r'.msum = (cumsumSkipna 0 r.months).getLastD none ∧
      (∀ v : ℚ, r.months.getLast? = some (some v) → r'.msum = some (rowSum r.months)) ∧
      ((∀ c ∈ r.months, c = none) → (∀ c ∈ r'.months, c = none) ∧ r'.msum = none) := by
  have he : ∀ (hall : ∀ c ∈ r.months, c = none), cumsumSkipna 0 r.months = r.months :=
    fun hall => cumsumSkipna_all_none r.months hall 0
  refine ⟨⟨cumsumSkipna 0 r.months, (cumsumSkipna 0 r.months).getLastD none⟩,
    ?_, ?_, ?_, rfl, ?_, ?_⟩
  · simp [get_agregated_sbu, List.getElem?_map, h]
  · intro j v hv
    simpa using cumsumSkipna_get_some r.months 0 j v hv
  · intro j hv
    exact cumsumSkipna_get_none r.months 0 j hv
  · intro v hv
    simpa using cumsumSkipna_getLast_some r.months 0 v hv
  · intro hall
    refine ⟨fun c hc => hall c ?_, ?_⟩
    · have hc2 : c ∈ cumsumSkipna 0 r.months := hc
      rwa [he hall] at hc2
    · show (cumsumSkipna 0 r.months).getLastD none = none
      rw [he hall, List.getLastD_eq_getLast?]
      cases hL : r.months.getLast? with
      | none => rfl
      | some c =>
        have hcm : c ∈ r.months := List.mem_of_mem_getLast? (hL ▸ rfl)
        simp [hall c hcm]

/-- C4 witness: the amended statement on the claim's own example row
`[100, 150, 0]`, which accumulates to `[100, 250, 250]` with sum 250. -/
theorem get_agregated_sbu_spec_witness :
    get_agregated_sbu [⟨[some 100, some 150, some 0], some 250⟩] =
      [⟨[some 100, some 250, some 250], some 250⟩] ∧
    (∃ r', (get_agregated_sbu [⟨[some 100, some 150, some 0], some 250⟩])[0]? = some r' ∧
      (∀ (j : ℕ) (v : ℚ),
        ([some 100, some 150, some 0] : List (Option ℚ))[j]? = some (some v) →
        r'.months[j]? = some (some (rowSum
          (([some 100, some 150, some 0] : List (Option ℚ)).take (j + 1))))) ∧
      (∀ (j : ℕ), ([some 100, some 150, some 0] : List (Option ℚ))[j]? = some none →
        r'.months[j]? = some none) ∧
      r'.msum = (cumsumSkipna 0 [some 100, some 150, some 0]).getLastD none ∧
      (∀ v : ℚ, ([some 100, some 150, some 0] : List (Option ℚ)).getLast? = some (some v) →
        r'.msum = some (rowSum [some 100, some 150, some 0])) ∧
      ((∀ c ∈ ([some 100, some 150, some 0] : List (Option ℚ)), c = none) →
        (∀ c ∈ r'.months, c = none) ∧ r'.msum = none)) :=
  ⟨by simp [get_agregated_sbu, cumsumSkipna]; norm_num,
   get_agregated_sbu_spec [⟨[some 100, some 150, some 0], some 250⟩] 0
     ⟨[some 100, some 150, some 0], some 250⟩ rfl⟩

/-- No decimal digit character is a dash. -/
theorem digitChar_ne_dash (n : ℕ) : Nat.digitChar n ≠ '-' := by
  rcases Nat.lt_or_ge n 16 with h | h
  · interval_cases n <;> decide
  · have h16 : Nat.digitChar n = '*' := by
      unfold Nat.digitChar
      iterate 16 rw [if_neg (by omega)]
    rw [h16]
    decide

/-- `Nat.toDigitsCore` only ever emits digit characters on top of its
accumulator, so it never introduces a dash. -/
theorem toDigitsCore_ne_dash :
    ∀ (fuel n : ℕ) (ds : List Char), (∀ c ∈ ds, c ≠ '-') →
      ∀ c ∈ Nat.toDigitsCore 10 fuel n ds, c ≠ '-' := by
  intro fuel
  induction fuel with
  | zero => intro n ds hds c hc; exact hds c hc
  | succ fuel ih =>
    intro n ds hds c hc
    simp only [Nat.toDigitsCore] at hc
    split at hc
    · rcases List.mem_cons.mp hc with h | h
      · subst h; exact digitChar_ne_dash _
      · exact hds c h
    · refine ih (n / 10) (Nat.digitChar (n % 10) :: ds) ?_ c hc
      intro x hx
      rcases List.mem_cons.mp hx with h | h
      · subst h; exact digitChar_ne_dash _
      · exact hds x h

/-- The decimal numeral of a natural number contains no dash. -/
theorem dashCount_repr (n : ℕ) : dashCount (Nat.repr n) = 0 := by
  have h : ∀ c ∈ Nat.toDigits 10 n, c ≠ '-' :=
    toDigitsCore_ne_dash (n + 1) n [] (by simp)
  show (Nat.repr n).data.count '-' = 0
  rw [List.count_eq_zero]
  intro hc
  exact h '-' hc rfl

/-- Dash counting distributes over string concatenation. -/
theorem dashCount_append (a b : String) : dashCount (a ++ b) = dashCount a + dashCount b := by
  cases a with
  | mk da =>
    cases b with
    | mk db =>
      show (da ++ db).count '-' = da.count '-' + db.count '-'
      exact List.count_append _ _ _

/-- `'{:d}'` of a nonnegative integer contains no dash. -/
theorem dashCount_intFormat (i : Int) (h : 0 ≤ i) : dashCount (intFormat i) = 0 := by
  unfold intFormat
  rw [if_neg (by omega)]
  exact dashCount_repr _

/-- On a valid interval bound (with dash-free defaults) `_parse_date` returns
normally, and its result is always a full `DD-MM-YYYY`-shaped string: exactly
two dash separators. -/
theorem parse_date_valid (input : DateInput) (h : ValidBound input) (dm dy : String)
    (t : Today) (hdm : dashCount dm = 0) (hdy : dashCount dy = 0) :
    ∃ r, parse_date input (some dm) (some dy) t = .ok r ∧ dashCount r = 2 := by
  cases h with
  | absent =>
    refine ⟨_, rfl, ?_⟩
    rw [dashCount_append, dashCount_append, dashCount_append, hdm, hdy]
    decide
  | int i h0 =>
    refine ⟨_, rfl, ?_⟩
    rw [dashCount_append, dashCount_intFormat i h0]
    decide
  | str s hs =>
    by_cases h0 : dashCount s = 0
    · refine ⟨"01-" ++ dm ++ "-" ++ s, by simp [parse_date, h0], ?_⟩
      rw [dashCount_append, dashCount_append, dashCount_append, hdm, h0]
      decide
    · by_cases h1 : dashCount s = 1
      · refine ⟨"01-" ++ s, by simp [parse_date, h0, h1], ?_⟩
        rw [dashCount_append, h1]
        decide
      · have h2 : dashCount s = 2 := by omega
        exact ⟨s, by simp [parse_date, h0, h1, h2], h2⟩

/-- Evaluation of `get_date_range` from the two `_parse_date` results. -/
theorem get_date_range_eq (t : Today) (s e : DateInput) (rs re : String)
    (hs : parse_date s (some "01") (some (Nat.repr (t.year + 1))) t = .ok rs)
    (he : parse_date e (some t.month) (some (Nat.repr (t.year + 1))) t = .ok re) :
    get_date_range t s e = .ok (rs, re) := by
  simp only [get_date_range, bind, Except.bind, hs, he]
  rfl

/-- C6: for valid interval bounds, `get_date_range` is idempotent — feeding
its own two `DD-MM-YYYY` output strings back in (on any later day) returns
them unchanged, because a two-dash string is passed through verbatim. -/
theorem get_date_range_idempotent (t t2 : Today) (hm : dashCount t.month = 0)
    (s e : DateInput) (hs : ValidBound s) (he : ValidBound e) (a b : String)
    (h : get_date_range t s e = .ok (a, b)) :
    get_date_range t2 (.str a) (.str b) = .ok (a, b) := by
  obtain ⟨ra, hra, hda⟩ :=
    parse_date_valid s hs "01" (Nat.repr (t.year + 1)) t (by decide) (dashCount_repr _)
  obtain ⟨rb, hrb, hdb⟩ :=
    parse_date_valid e he t.month (Nat.repr (t.year + 1)) t hm (dashCount_repr _)
  rw [get_date_range_eq t s e ra rb hra hrb] at h
  injection h with h
  rw [Prod.mk.injEq] at h
  obtain ⟨rfl, rfl⟩ := h
  have hpa : parse_date (.str ra) (some "01") (some (Nat.repr (t2.year + 1))) t2 = .ok ra := by
    simp [parse_date, hda]
  have hpb : parse_date (.str rb) (some t2.month) (some (Nat.repr (t2.year + 1))) t2 = .ok rb := by
    simp [parse_date, hdb]
  exact get_date_range_eq t2 (.str ra) (.str rb) ra rb hpa hpb

/-- C6 witness: resolving `("2019", None)` on 2019-05 gives
`("01-01-2019", "01-05-2020")`; re-resolving that pair on a later day
(2025-11) returns it unchanged. -/
theorem get_date_range_idempotent_witness :
    ValidBound (.str "2019") ∧ ValidBound .absent ∧
    get_date_range ⟨"05", 2019⟩ (.str "2019") .absent = .ok ("01-01-2019", "01-05-2020") ∧
    get_date_range ⟨"11", 2025⟩ (.str "01-01-2019") (.str "01-05-2020") =
      .ok ("01-01-2019", "01-05-2020") :=
  ⟨ValidBound.str "2019" (by decide), ValidBound.absent, by rfl,
   get_date_range_idempotent ⟨"05", 2019⟩ ⟨"11", 2025⟩ (by decide) (.str "2019") .absent
     (ValidBound.str "2019" (by decide)) ValidBound.absent "01-01-2019" "01-05-2020" (by rfl)⟩

/-- C8: `_parse_date` raises the format `ValueError` for any string bound
with more than 2 dash separators, raises the type `TypeError` for any bound
that is not a string, not an integer and not `None`, and returns normally for
a string bound with 0, 1 or 2 separators. -/
theorem parse_date_errors :
    (∀ (s : String) (dm dy : Option String) (t : Today), 2 < dashCount s →
      parse_date (.str s) dm dy t =
        .error (.valueError ("'input_date': '" ++ s ++ "'"))) ∧
    (∀ (ty : String) (dm dy : Option String) (t : Today),
      parse_date (.other ty) dm dy t =
        .error (.typeError
          ("Unsupported object type for the 'input_date' argument: '" ++ ty ++ "'"))) ∧
    (∀ (s : String) (dm dy : Option String) (t : Today), dashCount s ≤ 2 →
      ∃ r, parse_date (.str s) dm dy t = .ok r) := by
  refine ⟨?_, ?_, ?_⟩
  · intro s dm dy t h
    have h0 : ¬(dashCount s = 0) := by omega
    have h1 : ¬(dashCount s = 1) := by omega
    have h2 : ¬(dashCount s = 2) := by omega
    simp [parse_date, h0, h1, h2]
  · intro ty dm dy t
    rfl
  · intro s dm dy t h
    by_cases h0 : dashCount s = 0
    · refine ⟨"01-" ++ (match dm with | some m => m | none => "01") ++ "-" ++ s, ?_⟩
      cases dm <;> simp [parse_date, h0]
    · by_cases h1 : dashCount s = 1
      · exact ⟨"01-" ++ s, by simp [parse_date, h0, h1]⟩
      · have h2 : dashCount s = 2 := by omega
        exact ⟨s, by simp [parse_date, h0, h1, h2]⟩

/-- C8 witness: concrete instances — `1-2-3-4` (three separators) raises the
format error, a float bound raises the type error, and `05-2019` (one
separator) returns normally. -/
theorem parse_date_errors_witness :
    parse_date (.str "1-2-3-4") (some "01") (some "2019") ⟨"01", 2019⟩ =
      .error (.valueError ("'input_date': '" ++ "1-2-3-4" ++ "'")) ∧
    parse_date (.other "float") none none ⟨"01", 2019⟩ =
      .error (.typeError
        ("Unsupported object type for the 'input_date' argument: '" ++ "float" ++ "'")) ∧
    ∃ r, parse_date (.str "05-2019") (some "01") (some "2020") ⟨"01", 2019⟩ = .ok r :=
  ⟨parse_date_errors.1 "1-2-3-4" (some "01") (some "2019") ⟨"01", 2019⟩ (by decide),
   parse_date_errors.2.1 "float" none none ⟨"01", 2019⟩,
   parse_date_errors.2.2 "05-2019" (some "01") (some "2020") ⟨"01", 2019⟩ (by decide)⟩
